import Mathlib

/-!
Verification of the Result/Option combinator library (rusty-utils).

Shallow embedding: the two tagged unions become Lean inductives, the
combinators become Lean functions translated clause-by-clause from the
TypeScript source (result/types.ts, result/utils.ts, option/types.ts,
option/utils.ts).  Throwing operations return `Except`; the thrown value
is modelled in a small universe `JsVal` of host values.  Promises are
modelled as already-resolved values, so an `AsyncResult` input is a
`Result` and `await` is the identity.
-/

/-- A small universe of host (JavaScript) runtime values, used where the
source interacts with platform primitives: `instanceof Error` checks,
`JSON.stringify` renderings, and the `null`/`undefined` sentinels. -/
inductive JsVal where
  | errObj (msg : String)
  | jstr (s : String)
  | jnum (n : Int)
  | jbool (b : Bool)
  | jnull
  | jundef
deriving DecidableEq, Repr

/-- Models the host `instanceof Error` test: true exactly on error objects. -/
def instanceofError : JsVal → Bool
  | JsVal.errObj _ => true
  | _ => false

/-- Models the host `JSON.stringify` rendering of a value as a string.
(Error objects serialize to `{}`; the exact rendering of each case is a
model of the platform primitive, not code of the repository.) -/
def jsonStringify : JsVal → String
  | JsVal.errObj _ => "\x7b\x7d"
  | JsVal.jstr s => "\"" ++ s ++ "\""
  | JsVal.jnum n => toString n
  | JsVal.jbool b => if b then "true" else "false"
  | JsVal.jnull => "null"
  | JsVal.jundef => "undefined"

/-- result/types.ts: `Result<T, E> = Ok<T> | Err<E>`, a closed two-variant
tagged union.  The constructors model the `ok`/`err` factories. -/
inductive Result (T E : Type) where
  | ok (value : T)
  | err (error : E)
deriving DecidableEq, Repr

namespace Result

variable {T U E F R : Type}

/-- result/types.ts `isOk`: discriminant test `result._tag === 'Ok'`. -/
def isOk : Result T E → Bool
  | Result.ok _ => true
  | Result.err _ => false

/-- result/types.ts `isErr`: discriminant test `result._tag === 'Err'`. -/
def isErr : Result T E → Bool
  | Result.ok _ => false
  | Result.err _ => true

/-- result/utils.ts `map`: `isOk(result) ? ok(fn(result.value)) : result`. -/
def map (result : Result T E) (fn : T → U) : Result U E :=
  match result with
  | Result.ok v => Result.ok (fn v)
  | Result.err e => Result.err e

/-- result/utils.ts `mapErr`: `isErr(result) ? err(fn(result.error)) : result`. -/
def mapErr (result : Result T E) (fn : E → F) : Result T F :=
  match result with
  | Result.ok v => Result.ok v
  | Result.err e => Result.err (fn e)

/-- result/utils.ts `andThen`: `isOk(result) ? fn(result.value) : result`. -/
def andThen (result : Result T E) (fn : T → Result U E) : Result U E :=
  match result with
  | Result.ok v => fn v
  | Result.err e => Result.err e

/-- result/utils.ts `orElse`: `isErr(result) ? fn(result.error) : result`. -/
def orElse (result : Result T E) (fn : E → Result T F) : Result T F :=
  match result with
  | Result.ok v => Result.ok v
  | Result.err e => fn e

/-- result/utils.ts `unwrapOr`: `isOk(result) ? result.value : defaultValue`. -/
def unwrapOr (result : Result T E) (defaultValue : T) : T :=
  match result with
  | Result.ok v => v
  | Result.err _ => defaultValue

/-- result/utils.ts `unwrapOrElse`: `isOk(result) ? result.value : fn(result.error)`. -/
def unwrapOrElse (result : Result T E) (fn : E → T) : T :=
  match result with
  | Result.ok v => v
  | Result.err e => fn e

/-- result/utils.ts `unwrap`: returns the value on `Ok`; on `Err` throws the
payload itself when it is an `Error` instance, else throws
`new Error('Unwrap failed: ' + JSON.stringify(error))`.  The thrown value
is the `Except.error` payload. -/
def unwrap (result : Result T JsVal) : Except JsVal T :=
  match result with
  | Result.ok v => Except.ok v
  | Result.err e =>
      if instanceofError e then Except.error e
      else Except.error (JsVal.errObj ("Unwrap failed: " ++ jsonStringify e))

/-- result/utils.ts `expect`: returns the value on `Ok`; on `Err` throws
`new Error(message)`, discarding the original payload. -/
def expect (result : Result T E) (message : String) : Except JsVal T :=
  match result with
  | Result.ok v => Except.ok v
  | Result.err _ => Except.error (JsVal.errObj message)

/-- The `{ ok, err }` pattern object taken by `match`. -/
structure Patterns (T E R : Type) where
  ok : T → R
  err : E → R

/-- result/utils.ts `match`:
`isOk(result) ? patterns.ok(result.value) : patterns.err(result.error)`. -/
def «match» (result : Result T E) (patterns : Patterns T E R) : R :=
  match result with
  | Result.ok v => patterns.ok v
  | Result.err e => patterns.err e

/-- result/utils.ts `mapAsync` with the input promise already resolved
(`await` is the identity, and the transform's awaited value is wrapped
with `ok`): on `Ok`, `ok(await fn(resolved.value))`; on `Err`, returns
`resolved` itself. -/
def mapAsync (result : Result T E) (fn : T → U) : Result U E :=
  match result with
  | Result.ok v => Result.ok (fn v)
  | Result.err e => Result.err e

/-- result/utils.ts `andThenAsync` with the input promise already resolved:
`isOk(resolved) ? await fn(resolved.value) : resolved`. -/
def andThenAsync (result : Result T E) (fn : T → Result U E) : Result U E :=
  match result with
  | Result.ok v => fn v
  | Result.err e => Result.err e

/-- The loop of result/utils.ts `combine`: scans left to right, returns the
first `Err` encountered, otherwise pushes each success value onto the
accumulated `values` array. -/
def combineGo : List (Result T E) → List T → Result (List T) E
  | [], values => Result.ok values
  | r :: rest, values =>
      match r with
      | Result.err e => Result.err e
      | Result.ok v => combineGo rest (values ++ [v])

/-- result/utils.ts `combine`: starts the scan with an empty `values` array. -/
def combine (results : List (Result T E)) : Result (List T) E :=
  combineGo results []

/-- result/utils.ts `tryCatch`: the possibly-throwing call `fn()` is modelled
by its outcome `fn : Except E T` (`Except.error x` = `fn` threw `x`).  On
normal return, `ok`; on a throw, `err(errorMapper(x))` when a mapper is
supplied, else `err(x)` (the raw thrown value, cast). -/
def tryCatch (fn : Except E T) (errorMapper : Option (E → E)) : Result T E :=
  match fn with
  | Except.ok v => Result.ok v
  | Except.error x =>
      match errorMapper with
      | Option.some m => Result.err (m x)
      | Option.none => Result.err x

/-- result/utils.ts `filter`: on `Ok`, keeps the result when the predicate
holds, else `err(errorFn(value))`; `Err` passes through. -/
def filter (result : Result T E) (predicate : T → Bool) (errorFn : T → E) :
    Result T E :=
  match result with
  | Result.ok v => if predicate v then Result.ok v else Result.err (errorFn v)
  | Result.err e => Result.err e

end Result

namespace Rusty

/-- option/types.ts: `Option<T> = Some<T> | None`, a closed two-variant
tagged union; `none` carries no payload.  The constructors model the
`some` factory and the shared `none` constant. -/
inductive Option (T : Type) where
  | some (value : T)
  | none
deriving DecidableEq, Repr

/-- option/types.ts: the nullable input of `fromNullable` —
`T | null | undefined`, the platform's two empty sentinels alongside a
present value. -/
inductive Nullable (T : Type) where
  | val (v : T)
  | nullV
  | undefinedV
deriving DecidableEq, Repr

namespace Option

variable {T U V W R : Type}

/-- option/types.ts `isSome`: discriminant test `option._tag === 'Some'`. -/
def isSome : Option T → Bool
  | Option.some _ => true
  | Option.none => false

/-- option/types.ts `isNone`: discriminant test `option._tag === 'None'`. -/
def isNone : Option T → Bool
  | Option.some _ => false
  | Option.none => true

/-- option/types.ts `fromNullable`: `value != null ? some(value) : none` —
the loose inequality `!= null` is false exactly on `null` and `undefined`. -/
def fromNullable : Nullable T → Option T
  | Nullable.val v => Option.some v
  | Nullable.nullV => Option.none
  | Nullable.undefinedV => Option.none

/-- option/utils.ts `map`: `isSome(option) ? some(fn(option.value)) : none`. -/
def map (option : Option T) (fn : T → U) : Option U :=
  match option with
  | Option.some v => Option.some (fn v)
  | Option.none => Option.none

/-- option/utils.ts `andThen`: `isSome(option) ? fn(option.value) : none`. -/
def andThen (option : Option T) (fn : T → Option U) : Option U :=
  match option with
  | Option.some v => fn v
  | Option.none => Option.none

/-- option/utils.ts `orElse`: `isSome(option) ? option : fn()`. -/
def orElse (option : Option T) (fn : Unit → Option T) : Option T :=
  match option with
  | Option.some v => Option.some v
  | Option.none => fn ()

/-- option/utils.ts `unwrapOr`: `isSome(option) ? option.value : defaultValue`. -/
def unwrapOr (option : Option T) (defaultValue : T) : T :=
  match option with
  | Option.some v => v
  | Option.none => defaultValue

/-- option/utils.ts `unwrapOrElse`: `isSome(option) ? option.value : fn()`. -/
def unwrapOrElse (option : Option T) (fn : Unit → T) : T :=
  match option with
  | Option.some v => v
  | Option.none => fn ()

/-- option/utils.ts `unwrap`: the value on `Some`; on `None` throws
`new Error('Called unwrap on a None value')`. -/
def unwrap (option : Option T) : Except JsVal T :=
  match option with
  | Option.some v => Except.ok v
  | Option.none => Except.error (JsVal.errObj "Called unwrap on a None value")

/-- option/utils.ts `expect`: the value on `Some`; on `None` throws
`new Error(message)`. -/
def expect (option : Option T) (message : String) : Except JsVal T :=
  match option with
  | Option.some v => Except.ok v
  | Option.none => Except.error (JsVal.errObj message)

/-- The `{ some, none }` pattern object taken by `match`. -/
structure Patterns (T R : Type) where
  some : T → R
  none : Unit → R

/-- option/utils.ts `match`:
`isSome(option) ? patterns.some(option.value) : patterns.none()`. -/
def «match» (option : Option T) (patterns : Patterns T R) : R :=
  match option with
  | Option.some v => patterns.some v
  | Option.none => patterns.none ()

/-- option/utils.ts `mapAsync` with the input promise already resolved: on
`Some`, `some(await fn(resolved.value))`; on `None`, `none`. -/
def mapAsync (option : Option T) (fn : T → U) : Option U :=
  match option with
  | Option.some v => Option.some (fn v)
  | Option.none => Option.none

/-- option/utils.ts `andThenAsync` with the input promise already resolved:
`isSome(resolved) ? await fn(resolved.value) : none`. -/
def andThenAsync (option : Option T) (fn : T → Option U) : Option U :=
  match option with
  | Option.some v => fn v
  | Option.none => Option.none

/-- option/utils.ts `filter`:
`isSome(option) && predicate(option.value) ? option : none`. -/
def filter (option : Option T) (predicate : T → Bool) : Option T :=
  match option with
  | Option.some v => if predicate v then Option.some v else Option.none
  | Option.none => Option.none

/-- option/utils.ts `map2`: applies `fn` only when both are `Some`. -/
def map2 (option1 : Option T) (option2 : Option U) (fn : T → U → V) :
    Option V :=
  match option1, option2 with
  | Option.some v1, Option.some v2 => Option.some (fn v1 v2)
  | _, _ => Option.none

/-- option/utils.ts `map3`: applies `fn` only when all three are `Some`. -/
def map3 (option1 : Option T) (option2 : Option U) (option3 : Option V)
    (fn : T → U → V → W) : Option W :=
  match option1, option2, option3 with
  | Option.some v1, Option.some v2, Option.some v3 =>
      Option.some (fn v1 v2 v3)
  | _, _, _ => Option.none

/-- The loop of option/utils.ts `combine`: scans left to right, returns
`none` on the first `None`, otherwise pushes each value onto `values`. -/
def combineGo : List (Option T) → List T → Option (List T)
  | [], values => Option.some values
  | o :: rest, values =>
      match o with
      | Option.none => Option.none
      | Option.some v => combineGo rest (values ++ [v])

/-- option/utils.ts `combine`: starts the scan with an empty `values` array. -/
def combine (options : List (Option T)) : Option (List T) :=
  combineGo options []

/-- option/utils.ts `findSome`: the first `Some` in iteration order, else
`none`. -/
def findSome : List (Option T) → Option T
  | [] => Option.none
  | o :: rest =>
      match o with
      | Option.some v => Option.some v
      | Option.none => findSome rest

/-- option/utils.ts `collectSome`: the payloads of all `Some` elements in
order, discarding `None` elements. -/
def collectSome : List (Option T) → List T
  | [] => []
  | o :: rest =>
      match o with
      | Option.some v => v :: collectSome rest
      | Option.none => collectSome rest

end Option

end Rusty

/-!
Reference-identity model.  The TypeScript containers are heap objects; a
combinator may return either a freshly allocated object or the very input
reference.  A `Store` is the list of allocated containers; an address is
an index; `alloc` appends (object literals such as `ok(...)` allocate).
This model is used to settle the freshness/no-mutation claim.
-/

/-- The allocated `Result` containers; the address of a container is its
index in `objs`. -/
structure Store (T E : Type) where
  objs : List (Result T E)
deriving DecidableEq, Repr

/-- Allocating a fresh container (an object literal in the source) appends
it to the store and returns its new address. -/
def allocResult {T E : Type} (h : Store T E) (r : Result T E) :
    Store T E × Nat :=
  (⟨h.objs ++ [r]⟩, h.objs.length)

/-- result/utils.ts `map` at reference level:
`isOk(result) ? ok(fn(result.value)) : result` — the `Ok` branch allocates
a fresh container via the `ok` factory; the `Err` branch returns the input
reference itself. -/
def mapRef {T E : Type} (h : Store T E) (r : Nat) (fn : T → T) :
    Store T E × Nat :=
  match h.objs.get? r with
  | Option.some (Result.ok v) => allocResult h (Result.ok (fn v))
  | _ => (h, r)

/-- The allocated `Option` containers; by convention address 0 holds the
shared `none` singleton of option/types.ts. -/
structure StoreO (T : Type) where
  objs : List (Rusty.Option T)
deriving DecidableEq, Repr

/-- option/utils.ts `filter` at reference level:
`isSome(option) && predicate(option.value) ? option : none` — the passing
branch returns the input reference itself, every other branch returns the
shared `none` singleton (address 0); no branch allocates. -/
def filterRefO {T : Type} (h : StoreO T) (o : Nat) (predicate : T → Bool) :
    StoreO T × Nat :=
  match h.objs.get? o with
  | Option.some (Rusty.Option.some v) =>
      if predicate v then (h, o) else (h, 0)
  | _ => (h, 0)

/-!
Spec-side helpers and theorems.
-/

/-- The success payloads of a list of Results, in order (spec-side helper
for stating what `combine` collects). -/
def okValues {T E : Type} (rs : List (Result T E)) : List T :=
  rs.filterMap fun r =>
    match r with
    | Result.ok v => Option.some v
    | Result.err _ => Option.none

lemma combineGo_all_ok {T E : Type} (rs : List (Result T E)) (acc : List T)
    (h : ∀ r ∈ rs, Result.isOk r) :
    Result.combineGo rs acc = Result.ok (acc ++ okValues rs) := by
  induction rs generalizing acc with
  | nil => simp [Result.combineGo, okValues]
  | cons r rest ih =>
    cases r with
    | ok v =>
      have hrest : ∀ x ∈ rest, Result.isOk x := fun x hx => h x (by simp [hx])
      simp [Result.combineGo, ih (acc ++ [v]) hrest, okValues,
        List.filterMap_cons]
    | err e =>
      have := h (Result.err e) (by simp)
      simp [Result.isOk] at this

lemma combineGo_first_err {T E : Type} (pre : List (Result T E)) (e : E)
    (rest : List (Result T E)) (acc : List T)
    (h : ∀ r ∈ pre, Result.isOk r) :
    Result.combineGo (pre ++ Result.err e :: rest) acc = Result.err e := by
  induction pre generalizing acc with
  | nil => simp [Result.combineGo]
  | cons r pre' ih =>
    cases r with
    | ok v =>
      have hpre : ∀ x ∈ pre', Result.isOk x := fun x hx => h x (by simp [hx])
      simp [Result.combineGo, ih (acc ++ [v]) hpre]
    | err e' =>
      have := h (Result.err e') (by simp)
      simp [Result.isOk] at this

/-- C1: `Result.combine` succeeds with the ordered list of all success
values when every element is `Ok`, and returns the first `Err` element in
iteration order otherwise — the elements after the first `Err` (here an
arbitrary `rest`) contribute nothing to the output. -/
theorem combine_first_failure_wins {T E : Type} :
    (∀ rs : List (Result T E), (∀ r ∈ rs, Result.isOk r) →
        Result.combine rs = Result.ok (okValues rs)) ∧
    (∀ (pre : List (Result T E)) (e : E) (rest : List (Result T E)),
        (∀ r ∈ pre, Result.isOk r) →
        Result.combine (pre ++ Result.err e :: rest) = Result.err e) := by
  constructor
  · intro rs h
    simpa using combineGo_all_ok rs [] h
  · intro pre e rest h
    exact combineGo_first_err pre e rest [] h

/-- Witness for C1 at the spec's own examples:
`combine([ok(1), err("X"), ok(3)]) = err("X")` and
`combine([ok(1), ok(2), ok(3)]) = ok([1,2,3])`. -/
theorem combine_first_failure_wins_witness :
    Result.combine [Result.ok 1, Result.err "X", (Result.ok 3 : Result Nat String)]
      = Result.err "X" ∧
    Result.combine [Result.ok 1, Result.ok 2, (Result.ok 3 : Result Nat String)]
      = Result.ok [1, 2, 3] := by
  constructor
  · have h := (combine_first_failure_wins (T := Nat) (E := String)).2
      [Result.ok 1] "X" [Result.ok 3] (by decide)
    simpa using h
  · have h := (combine_first_failure_wins (T := Nat) (E := String)).1
      [Result.ok 1, Result.ok 2, Result.ok 3] (by decide)
    simpa [okValues] using h

/-- Counterexample to C2 ("every combinator returns a new container
instance distinct from its input"): at the concrete store holding the
single container `err "X"` at address 0, `map` on that container returns
address 0 itself with the store unchanged — the returned container is the
very input instance, not a new one (line 11 of result/utils.ts returns
`result` on the `Err` path). -/
theorem map_err_returns_input_instance :
    mapRef (⟨[Result.err "X"]⟩ : Store Nat String) 0 (fun v => v + 1) =
      ((⟨[Result.err "X"]⟩ : Store Nat String), 0) := by
  rfl

/-- C2 (amended): no combinator ever mutates an existing container — the
input store is a prefix of the output store, so every already-allocated
container is unchanged — but the returned container is not always a new
instance: `Result.map` returns either a freshly allocated container (the
`Ok` path, at the fresh address `h.objs.length`) or the input instance
itself (the `Err` path), and `Option.filter` never allocates, returning
either the input instance (a `Some` passing the predicate) or the shared
`none` singleton at address 0. -/
theorem combinators_never_mutate {T E S : Type} (h : Store T E) (r : Nat)
    (fn : T → T) (g : StoreO S) (o : Nat) (p : S → Bool) :
    (h.objs <+: (mapRef h r fn).1.objs ∧
      ((mapRef h r fn).2 = r ∨ (mapRef h r fn).2 = h.objs.length)) ∧
    ((filterRefO g o p).1 = g ∧
      ((filterRefO g o p).2 = o ∨ (filterRefO g o p).2 = 0)) := by
  refine ⟨⟨?_, ?_⟩, ?_, ?_⟩
  · unfold mapRef
    match hg : h.objs.get? r with
    | Option.some (Result.ok v) => simp [allocResult]
    | Option.some (Result.err e) => simp
    | Option.none => simp
  · unfold mapRef
    match hg : h.objs.get? r with
    | Option.some (Result.ok v) => simp [allocResult]
    | Option.some (Result.err e) => simp
    | Option.none => simp
  · unfold filterRefO
    match hg : g.objs.get? o with
    | Option.some (Rusty.Option.some v) =>
      by_cases hp : p v <;> simp [hp]
    | Option.some Rusty.Option.none => simp
    | Option.none => simp
  · unfold filterRefO
    match hg : g.objs.get? o with
    | Option.some (Rusty.Option.some v) =>
      by_cases hp : p v <;> simp [hp]
    | Option.some Rusty.Option.none => simp
    | Option.none => simp

/-- C3: `map` and `andThen` on `err(e)` return `err(e)` unchanged for
every transform — the result is the same for all `f`, so the transform is
never consulted on the `Err` input. -/
theorem map_andThen_err_propagate {T U E : Type} (e : E) (f : T → U)
    (g : T → Result U E) :
    Result.map (Result.err e : Result T E) f = Result.err e ∧
    Result.andThen (Result.err e : Result T E) g = Result.err e := by
  exact ⟨rfl, rfl⟩

/-- C4: `unwrap(ok(v))` returns `v`; `unwrap(err(e))` always throws — the
payload `e` itself when `e` is an `Error` instance, else a generic error
whose message carries a string rendering of `e`. -/
theorem unwrap_ok_value_err_throws {T : Type} :
    (∀ v : T, Result.unwrap (Result.ok v : Result T JsVal) = Except.ok v) ∧
    (∀ e : JsVal, instanceofError e = true →
        Result.unwrap (Result.err e : Result T JsVal) = Except.error e) ∧
    (∀ e : JsVal, instanceofError e = false →
        Result.unwrap (Result.err e : Result T JsVal) =
          Except.error (JsVal.errObj ("Unwrap failed: " ++ jsonStringify e))) := by
  refine ⟨fun v => rfl, fun e he => ?_, fun e he => ?_⟩
  · simp [Result.unwrap, he]
  · simp [Result.unwrap, he]

/-- Witness for C4: an `Error`-payload `err` re-throws the payload as-is,
and a string-payload `err` throws the generic wrapped error. -/
theorem unwrap_ok_value_err_throws_witness :
    Result.unwrap (Result.err (JsVal.errObj "boom") : Result Nat JsVal) =
      Except.error (JsVal.errObj "boom") ∧
    Result.unwrap (Result.err (JsVal.jstr "x") : Result Nat JsVal) =
      Except.error
        (JsVal.errObj ("Unwrap failed: " ++ jsonStringify (JsVal.jstr "x"))) := by
  constructor
  · exact (unwrap_ok_value_err_throws (T := Nat)).2.1 (JsVal.errObj "boom")
      (by decide)
  · exact (unwrap_ok_value_err_throws (T := Nat)).2.2 (JsVal.jstr "x")
      (by decide)

/-- C5: `tryCatch` returns `ok` of the computed value on normal return;
when the computation throws `x`, it returns `err(errorMapper(x))` when a
mapper is supplied and `err(x)` — the raw thrown value — when not. -/
theorem tryCatch_capture {T E : Type} (v : T) (x : E) (m : E → E)
    (mapper : Option (E → E)) :
    Result.tryCatch (Except.ok v : Except E T) mapper = Result.ok v ∧
    Result.tryCatch (Except.error x : Except E T) (Option.some m) =
      Result.err (m x) ∧
    Result.tryCatch (Except.error x : Except E T) Option.none =
      Result.err x := by
  exact ⟨rfl, rfl, rfl⟩

/-- C6: the two unsafe extraction operations of each module fail exactly
when called on the failure/absence variant — `unwrap`/`expect` produce a
thrown error (an `Except.error`, surfaced synchronously to the caller) iff
the input is `Err`/`None`, and succeed otherwise.  Every other combinator
of the embedding is a plain total function and cannot throw. -/
theorem unsafe_extraction_fails_iff_wrong_variant {T E : Type}
    (r : Result T JsVal) (s : Result T E) (o : Rusty.Option T)
    (msg : String) :
    ((∃ ex, Result.unwrap r = Except.error ex) ↔ Result.isErr r = true) ∧
    ((∃ ex, Result.expect s msg = Except.error ex) ↔ Result.isErr s = true) ∧
    ((∃ ex, Rusty.Option.unwrap o = Except.error ex) ↔
      Rusty.Option.isNone o = true) ∧
    ((∃ ex, Rusty.Option.expect o msg = Except.error ex) ↔
      Rusty.Option.isNone o = true) := by
  refine ⟨?_, ?_, ?_, ?_⟩
  · cases r with
    | ok v => simp [Result.unwrap, Result.isErr]
    | err e =>
      by_cases he : instanceofError e <;>
        simp [Result.unwrap, Result.isErr, he]
  · cases s with
    | ok v => simp [Result.expect, Result.isErr]
    | err e => simp [Result.expect, Result.isErr]
  · cases o with
    | some v => simp [Rusty.Option.unwrap, Rusty.Option.isNone]
    | none => simp [Rusty.Option.unwrap, Rusty.Option.isNone]
  · cases o with
    | some v => simp [Rusty.Option.expect, Rusty.Option.isNone]
    | none => simp [Rusty.Option.expect, Rusty.Option.isNone]

/-- C7: `fromNullable` returns `None` exactly on the two empty sentinels
`null` and `undefined`, and `Some(v)` on every present value — including
the falsy-but-present `0`, `""` and `false`. -/
theorem fromNullable_none_iff_sentinel {T : Type} :
    (∀ n : Rusty.Nullable T,
        Rusty.Option.fromNullable n = Rusty.Option.none ↔
          n = Rusty.Nullable.nullV ∨ n = Rusty.Nullable.undefinedV) ∧
    (∀ v : T,
        Rusty.Option.fromNullable (Rusty.Nullable.val v) = Rusty.Option.some v) ∧
    Rusty.Option.fromNullable (Rusty.Nullable.val (0 : Int)) =
      Rusty.Option.some 0 ∧
    Rusty.Option.fromNullable (Rusty.Nullable.val "") =
      Rusty.Option.some "" ∧
    Rusty.Option.fromNullable (Rusty.Nullable.val false) =
      Rusty.Option.some false := by
  refine ⟨fun n => ?_, fun v => rfl, rfl, rfl, rfl⟩
  cases n <;> simp [Rusty.Option.fromNullable]

/-- C8: pattern matching with the two constructors as branches rebuilds
the input Result exactly (round-trip identity), and `match` reduces to the
branch selected by the variant — the `ok` branch on `Ok`, the `err` branch
on `Err` — so exactly one branch is consulted. -/
theorem match_roundtrip_identity {T E R : Type} (r : Result T E) (v : T)
    (e : E) (p : Result.Patterns T E R) :
    Result.«match» r ⟨Result.ok, Result.err⟩ = r ∧
    Result.«match» (Result.ok v : Result T E) p = p.ok v ∧
    Result.«match» (Result.err e : Result T E) p = p.err e := by
  refine ⟨?_, rfl, rfl⟩
  cases r <;> rfl

/-- C9: on an already-resolved input, the async combinators agree with
their synchronous counterparts in both modules: `mapAsync` equals `map`
and `andThenAsync` equals `andThen`. -/
theorem async_agrees_with_sync {T U E : Type} (r : Result T E) (f : T → U)
    (g : T → Result U E) (o : Rusty.Option T) (fo : T → U)
    (go : T → Rusty.Option U) :
    Result.mapAsync r f = Result.map r f ∧
    Result.andThenAsync r g = Result.andThen r g ∧
    Rusty.Option.mapAsync o fo = Rusty.Option.map o fo ∧
    Rusty.Option.andThenAsync o go = Rusty.Option.andThen o go := by
  refine ⟨?_, ?_, ?_, ?_⟩
  · cases r <;> rfl
  · cases r <;> rfl
  · cases o <;> rfl
  · cases o <;> rfl

/-- C10: on the empty list both combine operations succeed with the empty
collection: `Result.combine([]) = ok([])` and
`Option.combine([]) = some([])`. -/
theorem combine_empty_succeeds {T E S : Type} :
    Result.combine ([] : List (Result T E)) = Result.ok [] ∧
    Rusty.Option.combine ([] : List (Rusty.Option S)) =
      Rusty.Option.some [] := by
  exact ⟨rfl, rfl⟩
